import Mathlib

/-!
Verification development for the babyFinance expense-assistant repository.

The whole core logic of the repository lives in one Python function,
`process_text_input(text, user_id, reply_token)` in `app.py`, plus the two
thin webhook handlers `handle_message` and `handle_audio_message`.  This file
gives a shallow embedding of that code:

* Python runtime values that can flow through the function are modelled by
  `PyVal` (JSON-decodable values plus `datetime` objects).
* Python exceptions are modelled by `Except PyErr`; the dynamic operations the
  code performs (`dict.get`, `d[k]` subscripting, `+`) are modelled by total
  Lean functions into `Except PyErr` that raise exactly where CPython raises.
* The Gemini call and the result of `json.loads` are inputs of the embedding
  (an `Env`): the model call returns either a raw text or raises, and
  `loads` maps a cleaned string to `some v` (the decoded value) or `none`
  (a `json.JSONDecodeError`).
* The Firestore per-user transaction collections are modelled by an
  append-only list of `(owner_id, document)` pairs, in insertion order; a
  range query `where date >= start` is a filter over it.
* Sending a LINE reply is modelled by the list of reply texts the handler
  produces for the inbound message.
-/

/-- A local calendar timestamp; `datetime.datetime` values as the code uses
them (naive local time, compared field-lexicographically). -/
structure DateTime where
  year : Nat
  month : Nat
  day : Nat
  hour : Nat
  minute : Nat
  second : Nat
deriving DecidableEq, Repr

/-- Python datetime comparison `a <= b` (lexicographic on the fields, as CPython
compares naive datetimes). -/
def DateTime.leb (a b : DateTime) : Bool :=
  if a.year ≠ b.year then a.year < b.year
  else if a.month ≠ b.month then a.month < b.month
  else if a.day ≠ b.day then a.day < b.day
  else if a.hour ≠ b.hour then a.hour < b.hour
  else if a.minute ≠ b.minute then a.minute < b.minute
  else a.second ≤ b.second

/-- Python values that can flow through `process_text_input`: everything
`json.loads` can produce (with integers for JSON numbers, as the prompt asks
for `int` prices) plus `datetime` objects and `None`. -/
inductive PyVal where
  | none
  | bool (b : Bool)
  | int (n : Int)
  | str (s : String)
  | list (xs : List PyVal)
  | dict (fields : List (String × PyVal))
  | dt (d : DateTime)
deriving Repr

/-- Python exceptions that the code can raise internally; the top-level
`except Exception` treats them all alike. -/
inductive PyErr where
  | attributeError
  | keyError
  | typeError
  | apiError
  | persistenceError
deriving DecidableEq, Repr

mutual

/-- Python `==` on the values we model (used for dict-key lookup and the
string comparisons in the code). -/
def PyVal.beq : PyVal → PyVal → Bool
  | PyVal.none, PyVal.none => true
  | PyVal.bool a, PyVal.bool b => a == b
  | PyVal.int a, PyVal.int b => a == b
  | PyVal.str a, PyVal.str b => a == b
  | PyVal.dt a, PyVal.dt b => decide (a = b)
  | PyVal.list xs, PyVal.list ys => PyVal.beqList xs ys
  | PyVal.dict xs, PyVal.dict ys => PyVal.beqFields xs ys
  | _, _ => false

def PyVal.beqList : List PyVal → List PyVal → Bool
  | [], [] => true
  | x :: xs, y :: ys => PyVal.beq x y && PyVal.beqList xs ys
  | _, _ => false

def PyVal.beqFields : List (String × PyVal) → List (String × PyVal) → Bool
  | [], [] => true
  | (k1, v1) :: xs, (k2, v2) :: ys => k1 == k2 && PyVal.beq v1 v2 && PyVal.beqFields xs ys
  | _, _ => false

end

/-- Lookup in a Python dict modelled as an association list. -/
def lookupField : List (String × PyVal) → String → Option PyVal
  | [], _ => Option.none
  | (k, v) :: rest, key => if k == key then some v else lookupField rest key

/-- Python `str(n)` for an `int`. -/
def pyIntStr (n : Int) : String := toString n

/-- Zero-padding to two digits, as `datetime.__str__` prints fields. -/
def pad2 (n : Nat) : String := if n < 10 then "0" ++ toString n else toString n

/-- Python `str()` of a `datetime` value. -/
def DateTime.pyStr (d : DateTime) : String :=
  toString d.year ++ "-" ++ pad2 d.month ++ "-" ++ pad2 d.day ++ " " ++
    pad2 d.hour ++ ":" ++ pad2 d.minute ++ ":" ++ pad2 d.second

mutual

/-- Python `str()` of a value, as f-string interpolation applies it. -/
def PyVal.pyStr : PyVal → String
  | PyVal.none => "None"
  | PyVal.bool b => if b then "True" else "False"
  | PyVal.int n => pyIntStr n
  | PyVal.str s => s
  | PyVal.dt d => DateTime.pyStr d
  | PyVal.list xs => "[" ++ PyVal.reprJoin xs ++ "]"
  | PyVal.dict fs => "\x7b" ++ PyVal.reprFields fs ++ "\x7d"

/-- Python `repr()` of a value (used for elements inside containers). -/
def PyVal.pyRepr : PyVal → String
  | PyVal.none => "None"
  | PyVal.bool b => if b then "True" else "False"
  | PyVal.int n => pyIntStr n
  | PyVal.str s => "\x27" ++ s ++ "\x27"
  | PyVal.dt d => DateTime.pyStr d
  | PyVal.list xs => "[" ++ PyVal.reprJoin xs ++ "]"
  | PyVal.dict fs => "\x7b" ++ PyVal.reprFields fs ++ "\x7d"

def PyVal.reprJoin : List PyVal → String
  | [] => ""
  | [x] => PyVal.pyRepr x
  | x :: y :: rest => PyVal.pyRepr x ++ ", " ++ PyVal.reprJoin (y :: rest)

def PyVal.reprFields : List (String × PyVal) → String
  | [] => ""
  | [(k, v)] => "\x27" ++ k ++ "\x27: " ++ PyVal.pyRepr v
  | (k, v) :: p :: rest =>
      "\x27" ++ k ++ "\x27: " ++ PyVal.pyRepr v ++ ", " ++ PyVal.reprFields (p :: rest)

end

/-- Model of `data.get(key)`: on a dict, the value or `None`; on any non-dict value,
CPython raises `AttributeError` (no `.get` attribute). -/
def pyDictGet (v : PyVal) (key : String) : Except PyErr PyVal :=
  match v with
  | PyVal.dict fs => Except.ok ((lookupField fs key).getD PyVal.none)
  | _ => Except.error PyErr.attributeError

/-- Model of `data[key]` with a string key: `KeyError` on a dict without the key,
`TypeError` on non-dict containers / non-subscriptable values. -/
def pySubscript (v : PyVal) (key : String) : Except PyErr PyVal :=
  match v with
  | PyVal.dict fs =>
      match lookupField fs key with
      | some x => Except.ok x
      | Option.none => Except.error PyErr.keyError
  | _ => Except.error PyErr.typeError

/-- Python `v == s` against a string literal: true only for an equal `str`. -/
def pyEqStr (v : PyVal) (s : String) : Bool :=
  match v with
  | PyVal.str t => t == s
  | _ => false

/-- Numeric view for Python `+`: `bool` is an `int` subtype in CPython. -/
def pyNumVal : PyVal → Option Int
  | PyVal.int n => some n
  | PyVal.bool b => some (if b then 1 else 0)
  | _ => Option.none

/-- Python `a + b` restricted to the value shapes that can occur here:
number + number adds, str + str concatenates, anything else raises
`TypeError` (list/dict/datetime mixes all do in the expressions of this code). -/
def pyAdd (a b : PyVal) : Except PyErr PyVal :=
  match a, b with
  | PyVal.str s, PyVal.str t => Except.ok (PyVal.str (s ++ t))
  | _, _ =>
      match pyNumVal a, pyNumVal b with
      | some x, some y => Except.ok (PyVal.int (x + y))
      | _, _ => Except.error PyErr.typeError

/-- Unhashable values cannot be dict keys (`TypeError` from CPython). -/
def pyUnhashable : PyVal → Bool
  | PyVal.list _ => true
  | PyVal.dict _ => true
  | _ => false

/-- Model of `category_totals.get(category, 0)`. -/
def assocGetD (m : List (PyVal × PyVal)) (k d : PyVal) : PyVal :=
  match m with
  | [] => d
  | (k1, v) :: rest => if PyVal.beq k1 k then v else assocGetD rest k d

/-- Model of `category_totals[category] = v`.  Updating an existing key keeps its
insertion position; a new key is appended at the end (CPython dict order). -/
def assocSet (m : List (PyVal × PyVal)) (k v : PyVal) : List (PyVal × PyVal) :=
  match m with
  | [] => [(k, v)]
  | (k1, v1) :: rest =>
      if PyVal.beq k1 k then (k, v) :: rest else (k1, v1) :: assocSet rest k v

/-- Is the first list a prefix of the second? -/
def isPrefixOfChars : List Char → List Char → Bool
  | [], _ => true
  | _ :: _, [] => false
  | p :: ps, c :: cs => p == c && isPrefixOfChars ps cs

/-- Python `s.replace(pat, "")` for a non-empty `pat`, on the character list,
with explicit fuel (one unit per examined position) so the definition is
structural and kernel-evaluable. -/
def replaceFrom (pat : List Char) : Nat → List Char → List Char
  | _, [] => []
  | 0, s => s
  | fuel + 1, c :: rest =>
      if isPrefixOfChars pat (c :: rest) then
        replaceFrom pat fuel ((c :: rest).drop pat.length)
      else
        c :: replaceFrom pat fuel rest

/-- Python `s.replace(pat, "")` on strings. -/
def pyRemoveAll (pat : String) (s : List Char) : List Char :=
  replaceFrom pat.data s.length s

/-- Python `s.strip()`: drop leading and trailing whitespace. -/
def pyStrip (s : List Char) : List Char :=
  ((s.dropWhile Char.isWhitespace).reverse.dropWhile Char.isWhitespace).reverse

/-- The fence-stripping step `response.text.replace` of json fences followed by strip. -/
def cleanResponse (s : String) : String :=
  String.mk (pyStrip (pyRemoveAll "```" (pyRemoveAll "```json" s.data)))

/-- The fixed instruction text prepended to the user input (the f-string
prompt in `process_text_input`). -/
def promptHeader : String :=
  "\n        You are a professional accounting assistant. Analyze the user\x27s input and determine if they are recording a transaction or asking for a spending report.\n\n        If recording a transaction:\n        Return JSON: \x7b\"intent\": \"record\", \"item\": \"string\", \"price\": int, \"category\": \"string\"\x7d\n        \n        If asking for a report/query (e.g., \"how much spent\", \"report\", \"check spending\"):\n        Return JSON: \x7b\"intent\": \"query\", \"period\": \"string\"\x7d\n        (period can be \"this_month\", \"last_month\", \"today\", or \"all\")\n\n        If neither/unclear:\n        Return JSON: \x7b\"intent\": \"unknown\"\x7d\n        \n        User Input: "

/-- The full prompt sent to the model for a given user text. -/
def buildPrompt (text : String) : String :=
  promptHeader ++ text ++ "\n        "

/-- A Firestore transaction document, as the dict passed to `.add(...)` /
returned by `doc.to_dict()`. -/
abbrev TxDict := List (String × PyVal)

/-- All per-user transaction collections: `(owner_id, document)` pairs in
append order (`users/{user_id}/transactions`). -/
abbrev Store := List (String × TxDict)

/-- The external inputs of one `process_text_input` call: the model response
for the built prompt (or an API exception), the behavior of `json.loads` on
the cleaned response (`none` models `json.JSONDecodeError`), the wall-clock
`datetime.datetime.now()`, and whether the Firestore `.add` succeeds. -/
structure Env where
  genText : String → Except PyErr String
  loads : String → Option PyVal
  now : DateTime
  writeOk : Bool

/-- The pair `start_date`/`period_str` computed from the period value:
`this_month` gives midnight of day 1 of the current month, `today`
midnight of the current day, and anything else no lower bound. -/
def periodWindow (now : DateTime) (period : PyVal) : Option DateTime × String :=
  if PyVal.beq period (PyVal.str "this_month") then
    (some ⟨now.year, now.month, 1, 0, 0, 0⟩, "This Month")
  else if PyVal.beq period (PyVal.str "today") then
    (some ⟨now.year, now.month, now.day, 0, 0, 0⟩, "Today")
  else
    (Option.none, "Total")

/-- Does a document pass the (optional) `where date >= start` clause?
With no bound every document matches; with a bound, only documents whose
`date` field is a timestamp `>= start` (Firestore range filters drop
documents lacking the field or of another type). -/
def matchesWindow (doc : TxDict) : Option DateTime → Bool
  | Option.none => true
  | some s =>
      match lookupField doc "date" with
      | some (PyVal.dt d) => DateTime.leb s d
      | _ => false

/-- The documents streamed by `query_ref.stream()` for one owner, in store
order. -/
def fetchDocs (store : Store) (userId : String) (start : Option DateTime) : List TxDict :=
  (store.filter (fun e => e.1 == userId && matchesWindow e.2 start)).map Prod.snd

/-- One iteration of the aggregation loop body:
`price = t.get("price", 0)`, `category = t.get("category", "Uncategorized")`,
`total_amount += price`,
`category_totals[category] = category_totals.get(category, 0) + price`. -/
def aggStep (acc : PyVal × List (PyVal × PyVal)) (doc : TxDict) :
    Except PyErr (PyVal × List (PyVal × PyVal)) :=
  let price := (lookupField doc "price").getD (PyVal.int 0)
  let category := (lookupField doc "category").getD (PyVal.str "Uncategorized")
  match pyAdd acc.1 price with
  | Except.error e => Except.error e
  | Except.ok total =>
      if pyUnhashable category then Except.error PyErr.typeError
      else
        match pyAdd (assocGetD acc.2 category (PyVal.int 0)) price with
        | Except.error e => Except.error e
        | Except.ok sub => Except.ok (total, assocSet acc.2 category sub)

/-- The `for doc in docs:` aggregation loop over the fetched documents. -/
def runAgg : List TxDict → PyVal × List (PyVal × PyVal) →
    Except PyErr (PyVal × List (PyVal × PyVal))
  | [], acc => Except.ok acc
  | d :: ds, acc =>
      match aggStep acc d with
      | Except.error e => Except.error e
      | Except.ok acc1 => runAgg ds acc1

/-- The report text built from the totals (`report = ...` then the
`for cat, amount in category_totals.items():` loop). -/
def formatReport (periodStr : String) (total : PyVal) (cats : List (PyVal × PyVal)) : String :=
  cats.foldl
    (fun r p => r ++ "• " ++ PyVal.pyStr p.1 ++ ": $" ++ PyVal.pyStr p.2 ++ "\n")
    ("📊 Spending Report (" ++ periodStr ++ ")\n" ++ "💰 Total: $" ++
      PyVal.pyStr total ++ "\n" ++ "----------------\n")

/-- The confirmation f-string for a recorded transaction. -/
def recordMsg (item price category : PyVal) : String :=
  "✅ Recorded: " ++ PyVal.pyStr item ++ " - $" ++ PyVal.pyStr price ++
    " (" ++ PyVal.pyStr category ++ ")"

/-- The document dict passed to `.add(...)` for a record intent. -/
def recDoc (item price category : PyVal) (now : DateTime) : TxDict :=
  [("item", item), ("price", price), ("category", category), ("date", PyVal.dt now)]

/-- The fixed unknown-intent guidance reply. -/
def unknownReply : String :=
  "I didn\x27t understand that. You can say \x27Coffee $50\x27 to record, or \x27Check spending\x27 to see report."

/-- The fixed generic error reply of the top-level `except Exception` handler. -/
def errorReply : String :=
  "Sorry, an error occurred while processing your request."

/-- The body of the `try:` block of `process_text_input`: everything from the
model call to the branch-specific reply, raising exactly where the Python
code raises.  Returns the new store and the single reply text on success. -/
def process_text_input_try (env : Env) (text userId : String) (store : Store) :
    Except PyErr (Store × String) :=
  match env.genText (buildPrompt text) with
  | Except.error e => Except.error e
  | Except.ok respText =>
    let cleaned := cleanResponse respText
    let data :=
      match env.loads cleaned with
      | some v => v
      | Option.none => PyVal.dict [("intent", PyVal.str "unknown")]
    match pyDictGet data "intent" with
    | Except.error e => Except.error e
    | Except.ok intentVal =>
      if pyEqStr intentVal "record" then
        match pySubscript data "item" with
        | Except.error e => Except.error e
        | Except.ok item =>
          match pySubscript data "price" with
          | Except.error e => Except.error e
          | Except.ok price =>
            match pySubscript data "category" with
            | Except.error e => Except.error e
            | Except.ok category =>
              if env.writeOk then
                Except.ok (store ++ [(userId, recDoc item price category env.now)],
                  recordMsg item price category)
              else
                Except.error PyErr.persistenceError
      else if pyEqStr intentVal "query" then
        match pySubscript data "period" with
        | Except.error e => Except.error e
        | Except.ok period =>
          let w := periodWindow env.now period
          match runAgg (fetchDocs store userId w.1) (PyVal.int 0, []) with
          | Except.error e => Except.error e
          | Except.ok res => Except.ok (store, formatReport w.2 res.1 res.2)
      else
        Except.ok (store, unknownReply)

/-- The function `process_text_input`: the try body wrapped in the top-level
`except Exception` handler.  The result is the final store and the list of
reply texts sent for this inbound message. -/
def process_text_input (env : Env) (text userId : String) (store : Store) :
    Store × List String :=
  match process_text_input_try env text userId store with
  | Except.ok (st, msg) => (st, [msg])
  | Except.error _ => (store, [errorReply])

/-- The `TextMessage` webhook handler: feeds the message text straight into
`process_text_input`. -/
def handle_message (env : Env) (eventText userId : String) (store : Store) :
    Store × List String :=
  process_text_input env eventText userId store

/-- The external inputs of one `handle_audio_message` call: the transcription
outcome (the text of `model.generate_content` on the uploaded audio, or an
exception anywhere in download/upload/transcription) and the environment for
the ensuing text processing. -/
structure AudioMsgEnv where
  transcription : Except PyErr String
  textEnv : Env

/-- The fixed audio-failure reply of `handle_audio_message`. -/
def audioErrorReply : String := "Sorry, I couldn\x27t process the audio."

/-- The `AudioMessage` webhook handler: on a successful transcription the
resulting string goes through `process_text_input`; on failure a fixed
apology is sent. -/
def handle_audio_message (aenv : AudioMsgEnv) (userId : String) (store : Store) :
    Store × List String :=
  match aenv.transcription with
  | Except.ok transcribed => process_text_input aenv.textEnv transcribed userId store
  | Except.error _ => (store, [audioErrorReply])

/-- If the model call succeeds but `json.loads` fails, the fallback dict sends
the flow to the unknown branch: store untouched, unknown reply. -/
theorem reply_decodeFail (env : Env) (text userId : String) (store : Store) (resp : String)
    (hgen : env.genText (buildPrompt text) = Except.ok resp)
    (hload : env.loads (cleanResponse resp) = Option.none) :
    process_text_input env text userId store = (store, [unknownReply]) := by
  simp [process_text_input, process_text_input_try, hgen, hload, pyDictGet,
    lookupField, pyEqStr]

/-- A decoded dict whose intent is neither "record" nor "query" lands in the
unknown branch. -/
theorem reply_otherIntent (env : Env) (text userId : String) (store : Store)
    (resp : String) (fs : List (String × PyVal))
    (hgen : env.genText (buildPrompt text) = Except.ok resp)
    (hload : env.loads (cleanResponse resp) = some (PyVal.dict fs))
    (hrec : pyEqStr ((lookupField fs "intent").getD PyVal.none) "record" = false)
    (hqry : pyEqStr ((lookupField fs "intent").getD PyVal.none) "query" = false) :
    process_text_input env text userId store = (store, [unknownReply]) := by
  simp [process_text_input, process_text_input_try, hgen, hload, pyDictGet, hrec, hqry]

/-- A decoded non-dict value raises `AttributeError` at `data.get("intent")`,
so the outer handler sends the generic error reply. -/
theorem reply_nonDict (env : Env) (text userId : String) (store : Store)
    (resp : String) (v : PyVal)
    (hgen : env.genText (buildPrompt text) = Except.ok resp)
    (hload : env.loads (cleanResponse resp) = some v)
    (hnd : pyDictGet v "intent" = Except.error PyErr.attributeError) :
    process_text_input env text userId store = (store, [errorReply]) := by
  simp [process_text_input, process_text_input_try, hgen, hload, hnd]

/-- A record intent with all three sub-fields present and a working store:
the document is appended verbatim and the confirmation is sent. -/
theorem reply_recordOk (env : Env) (text userId : String) (store : Store)
    (resp : String) (fs : List (String × PyVal)) (i p c : PyVal)
    (hgen : env.genText (buildPrompt text) = Except.ok resp)
    (hload : env.loads (cleanResponse resp) = some (PyVal.dict fs))
    (hint : lookupField fs "intent" = some (PyVal.str "record"))
    (hitem : lookupField fs "item" = some i)
    (hprice : lookupField fs "price" = some p)
    (hcat : lookupField fs "category" = some c)
    (hw : env.writeOk = true) :
    process_text_input env text userId store =
      (store ++ [(userId, recDoc i p c env.now)], [recordMsg i p c]) := by
  simp [process_text_input, process_text_input_try, hgen, hload, pyDictGet, hint,
    pyEqStr, pySubscript, hitem, hprice, hcat, hw]

/-- A record intent with a missing `item`, `price` or `category` sub-field
raises `KeyError`; the outer handler sends the generic error reply. -/
theorem reply_recordMissing (env : Env) (text userId : String) (store : Store)
    (resp : String) (fs : List (String × PyVal))
    (hgen : env.genText (buildPrompt text) = Except.ok resp)
    (hload : env.loads (cleanResponse resp) = some (PyVal.dict fs))
    (hint : lookupField fs "intent" = some (PyVal.str "record"))
    (hmiss : lookupField fs "item" = Option.none ∨ lookupField fs "price" = Option.none ∨
      lookupField fs "category" = Option.none) :
    process_text_input env text userId store = (store, [errorReply]) := by
  rcases hmiss with h | h | h
  · simp [process_text_input, process_text_input_try, hgen, hload, pyDictGet, hint,
      pyEqStr, pySubscript, h]
  · cases hitem : lookupField fs "item" <;>
      simp [process_text_input, process_text_input_try, hgen, hload, pyDictGet, hint,
        pyEqStr, pySubscript, hitem, h]
  · cases hitem : lookupField fs "item" <;> cases hprice : lookupField fs "price" <;>
      simp [process_text_input, process_text_input_try, hgen, hload, pyDictGet, hint,
        pyEqStr, pySubscript, hitem, hprice, h]

/-- A record intent with all sub-fields present but a failing store write:
`PersistenceError` propagates to the outer handler, the store is unchanged,
and the generic error reply is sent. -/
theorem reply_recordWriteFail (env : Env) (text userId : String) (store : Store)
    (resp : String) (fs : List (String × PyVal)) (i p c : PyVal)
    (hgen : env.genText (buildPrompt text) = Except.ok resp)
    (hload : env.loads (cleanResponse resp) = some (PyVal.dict fs))
    (hint : lookupField fs "intent" = some (PyVal.str "record"))
    (hitem : lookupField fs "item" = some i)
    (hprice : lookupField fs "price" = some p)
    (hcat : lookupField fs "category" = some c)
    (hw : env.writeOk = false) :
    process_text_input env text userId store = (store, [errorReply]) := by
  simp [process_text_input, process_text_input_try, hgen, hload, pyDictGet, hint,
    pyEqStr, pySubscript, hitem, hprice, hcat, hw]

/-- A query intent with a `period` sub-field and a succeeding aggregation:
the reply is the formatted report over the fetched window and the store is
untouched. -/
theorem reply_queryOk (env : Env) (text userId : String) (store : Store)
    (resp : String) (fs : List (String × PyVal)) (p : PyVal)
    (res : PyVal × List (PyVal × PyVal))
    (hgen : env.genText (buildPrompt text) = Except.ok resp)
    (hload : env.loads (cleanResponse resp) = some (PyVal.dict fs))
    (hint : lookupField fs "intent" = some (PyVal.str "query"))
    (hperiod : lookupField fs "period" = some p)
    (hagg : runAgg (fetchDocs store userId (periodWindow env.now p).1) (PyVal.int 0, []) =
      Except.ok res) :
    process_text_input env text userId store =
      (store, [formatReport (periodWindow env.now p).2 res.1 res.2]) := by
  simp [process_text_input, process_text_input_try, hgen, hload, pyDictGet, hint,
    pyEqStr, pySubscript, hperiod, hagg]

/-- The integer price the aggregation loop effectively adds for a document
(missing price defaults to 0). -/
def priceOf (doc : TxDict) : Int :=
  match lookupField doc "price" with
  | some (PyVal.int n) => n
  | _ => 0

/-- The category string the aggregation loop groups a document under
(missing category defaults to "Uncategorized"). -/
def catOf (doc : TxDict) : String :=
  match lookupField doc "category" with
  | some (PyVal.str s) => s
  | _ => "Uncategorized"

/-- The price field of the document is absent or an integer. -/
def priceShapeB (doc : TxDict) : Bool :=
  match lookupField doc "price" with
  | Option.none => true
  | some (PyVal.int _) => true
  | _ => false

/-- The category field of the document is absent or a string. -/
def catShapeB (doc : TxDict) : Bool :=
  match lookupField doc "category" with
  | Option.none => true
  | some (PyVal.str _) => true
  | _ => false

/-- Well-shaped transaction document for aggregation purposes. -/
def wellShapedB (doc : TxDict) : Bool := priceShapeB doc && catShapeB doc

/-- Lookup in an idealized (string-keyed, integer-valued) category map. -/
def lookupCat : List (String × Int) → String → Option Int
  | [], _ => Option.none
  | (k, v) :: rest, c => if k = c then some v else lookupCat rest c

/-- Idealized category map rendered as the Python dict it stands for. -/
def encCats (L : List (String × Int)) : List (PyVal × PyVal) :=
  L.map (fun p => (PyVal.str p.1, PyVal.int p.2))

/-- Add `p` to the subtotal of `c`, keeping insertion order (a new category
is appended at the end). -/
def bump : List (String × Int) → String → Int → List (String × Int)
  | [], c, p => [(c, p)]
  | (k, v) :: rest, c, p =>
      if k = c then (c, v + p) :: rest else (k, v) :: bump rest c p

/-- The pure category fold the aggregation loop computes. -/
def catFold : List (String × Int) → List TxDict → List (String × Int)
  | L, [] => L
  | L, d :: ds => catFold (bump L (catOf d) (priceOf d)) ds

/-- The sublist of new elements in first-encounter order, given an already
seen set. -/
def firstSeenFrom : List String → List String → List String
  | _, [] => []
  | seen, c :: cs =>
      if c ∈ seen then firstSeenFrom seen cs else c :: firstSeenFrom (c :: seen) cs

/-- The distinct elements of a list in first-encounter order. -/
def firstSeen (cs : List String) : List String := firstSeenFrom [] cs

/-- Sum of effective prices of the documents grouped under category `c`. -/
def sumPricesFor (c : String) (docs : List TxDict) : Int :=
  ((docs.filter (fun d => catOf d == c)).map priceOf).sum

theorem priceShape_getD (doc : TxDict) (h : priceShapeB doc = true) :
    (lookupField doc "price").getD (PyVal.int 0) = PyVal.int (priceOf doc) := by
  unfold priceShapeB at h
  cases hp : lookupField doc "price" with
  | none => simp [priceOf, hp]
  | some v => rw [hp] at h; cases v <;> simp_all [priceOf, hp]

theorem catShape_getD (doc : TxDict) (h : catShapeB doc = true) :
    (lookupField doc "category").getD (PyVal.str "Uncategorized") = PyVal.str (catOf doc) := by
  unfold catShapeB at h
  cases hp : lookupField doc "category" with
  | none => simp [catOf, hp]
  | some v => rw [hp] at h; cases v <;> simp_all [catOf, hp]

theorem encCats_nil : encCats [] = [] := rfl

theorem encCats_cons (k : String) (v : Int) (L : List (String × Int)) :
    encCats ((k, v) :: L) = (PyVal.str k, PyVal.int v) :: encCats L := rfl

theorem pyBeq_str_str (a b : String) :
    PyVal.beq (PyVal.str a) (PyVal.str b) = (a == b) := rfl

theorem assocGetD_enc (L : List (String × Int)) (c : String) :
    assocGetD (encCats L) (PyVal.str c) (PyVal.int 0) =
      PyVal.int ((lookupCat L c).getD 0) := by
  induction L with
  | nil => simp [assocGetD, encCats_nil, lookupCat]
  | cons kv rest ih =>
    obtain ⟨k1, v1⟩ := kv
    rw [encCats_cons]
    by_cases hk : k1 = c
    · subst hk; simp [assocGetD, lookupCat, pyBeq_str_str]
    · simp [assocGetD, lookupCat, pyBeq_str_str, hk, ih]

theorem assocSet_enc (L : List (String × Int)) (c : String) (p : Int) :
    assocSet (encCats L) (PyVal.str c) (PyVal.int ((lookupCat L c).getD 0 + p)) =
      encCats (bump L c p) := by
  induction L with
  | nil => simp [assocSet, encCats, bump, lookupCat]
  | cons kv rest ih =>
    obtain ⟨k1, v1⟩ := kv
    rw [encCats_cons]
    by_cases hk : k1 = c
    · subst hk; simp [assocSet, lookupCat, pyBeq_str_str, bump, encCats_cons]
    · simp [assocSet, lookupCat, pyBeq_str_str, hk, ih, bump, encCats_cons]

theorem aggStep_enc (doc : TxDict) (h : wellShapedB doc = true)
    (T : Int) (L : List (String × Int)) :
    aggStep (PyVal.int T, encCats L) doc =
      Except.ok (PyVal.int (T + priceOf doc),
        encCats (bump L (catOf doc) (priceOf doc))) := by
  have hpc : priceShapeB doc = true ∧ catShapeB doc = true := by
    simpa [wellShapedB] using h
  have hp := priceShape_getD doc hpc.1
  have hc := catShape_getD doc hpc.2
  simp [aggStep, hp, hc, pyAdd, pyNumVal, pyUnhashable, assocGetD_enc, assocSet_enc]

theorem runAgg_enc (docs : List TxDict) (h : ∀ d ∈ docs, wellShapedB d = true)
    (T : Int) (L : List (String × Int)) :
    runAgg docs (PyVal.int T, encCats L) =
      Except.ok (PyVal.int (T + (docs.map priceOf).sum), encCats (catFold L docs)) := by
  induction docs generalizing T L with
  | nil => simp [runAgg, catFold]
  | cons d ds ih =>
    have hd : wellShapedB d = true := h d (by simp)
    have hds : ∀ x ∈ ds, wellShapedB x = true := fun x hx => h x (by simp [hx])
    simp [runAgg, aggStep_enc d hd T L, ih hds, catFold, Int.add_assoc]

theorem bump_keys (L : List (String × Int)) (c : String) (p : Int) :
    (bump L c p).map Prod.fst =
      if c ∈ L.map Prod.fst then L.map Prod.fst else L.map Prod.fst ++ [c] := by
  induction L with
  | nil => simp [bump]
  | cons kv rest ih =>
    obtain ⟨k1, v1⟩ := kv
    by_cases hk : k1 = c
    · subst hk; simp [bump]
    · have hck : ¬c = k1 := fun hcc => hk hcc.symm
      simp only [bump, if_neg hk, List.map_cons, ih]
      by_cases hm : c ∈ rest.map Prod.fst <;> simp [hm, List.mem_cons, hck]

theorem firstSeenFrom_congr (cs : List String) (s1 s2 : List String)
    (h : ∀ x, x ∈ s1 ↔ x ∈ s2) : firstSeenFrom s1 cs = firstSeenFrom s2 cs := by
  induction cs generalizing s1 s2 with
  | nil => simp [firstSeenFrom]
  | cons c cs ih =>
    by_cases hc : c ∈ s1
    · simp only [firstSeenFrom, if_pos hc, if_pos ((h c).mp hc)]
      exact ih s1 s2 h
    · have hc2 : c ∉ s2 := fun hx => hc ((h c).mpr hx)
      simp only [firstSeenFrom, if_neg hc, if_neg hc2]
      exact congrArg _ (ih _ _ (by intro x; simp [List.mem_cons, h x]))

theorem catFold_keys (docs : List TxDict) (L : List (String × Int)) :
    (catFold L docs).map Prod.fst =
      L.map Prod.fst ++ firstSeenFrom (L.map Prod.fst) (docs.map catOf) := by
  induction docs generalizing L with
  | nil => simp [catFold, firstSeenFrom]
  | cons d ds ih =>
    by_cases hc : catOf d ∈ L.map Prod.fst
    · rw [catFold, ih, bump_keys, if_pos hc]
      simp [firstSeenFrom, hc]
    · rw [catFold, ih, bump_keys, if_neg hc]
      have hcong : firstSeenFrom (L.map Prod.fst ++ [catOf d]) (ds.map catOf) =
          firstSeenFrom (catOf d :: L.map Prod.fst) (ds.map catOf) :=
        firstSeenFrom_congr _ _ _ (by intro x; simp [List.mem_append, List.mem_cons, or_comm])
      simp [firstSeenFrom, hc, hcong, List.append_assoc]

theorem bump_lookup_same (L : List (String × Int)) (c : String) (p : Int) :
    lookupCat (bump L c p) c = some ((lookupCat L c).getD 0 + p) := by
  induction L with
  | nil => simp [bump, lookupCat]
  | cons kv rest ih =>
    obtain ⟨k1, v1⟩ := kv
    by_cases hk : k1 = c
    · subst hk; simp [bump, lookupCat]
    · simp [bump, lookupCat, hk, ih]

theorem bump_lookup_other (L : List (String × Int)) (c c2 : String) (p : Int)
    (hne : c2 ≠ c) : lookupCat (bump L c p) c2 = lookupCat L c2 := by
  have hne2 : ¬c = c2 := fun hcc => hne hcc.symm
  induction L with
  | nil => simp [bump, lookupCat, hne2]
  | cons kv rest ih =>
    obtain ⟨k1, v1⟩ := kv
    by_cases hk : k1 = c
    · subst hk; simp [bump, lookupCat, hne2]
    · simp [bump, lookupCat, hk, ih]

theorem sumPricesFor_cons (c : String) (d : TxDict) (ds : List TxDict) :
    sumPricesFor c (d :: ds) =
      (if catOf d = c then priceOf d else 0) + sumPricesFor c ds := by
  by_cases hc : catOf d = c <;> simp [sumPricesFor, List.filter_cons, hc]

theorem catFold_lookup (docs : List TxDict) (L : List (String × Int)) (c : String) :
    lookupCat (catFold L docs) c =
      match lookupCat L c with
      | some v => some (v + sumPricesFor c docs)
      | Option.none =>
          if c ∈ docs.map catOf then some (sumPricesFor c docs) else Option.none := by
  induction docs generalizing L with
  | nil =>
    cases h : lookupCat L c <;> simp [catFold, sumPricesFor, h]
  | cons d ds ih =>
    rw [catFold, ih, sumPricesFor_cons]
    by_cases hc : catOf d = c
    · subst hc
      rw [bump_lookup_same]
      cases hL : lookupCat L (catOf d) <;>
        simp [hL, List.map_cons] <;> omega
    · have hne : c ≠ catOf d := fun h => hc h.symm
      rw [bump_lookup_other _ _ _ _ hne]
      cases hL : lookupCat L c <;> simp [hL, List.map_cons, hc, hne]

/-- With no lower bound (`All`), the fetch returns exactly the documents of
the owner. -/
theorem fetchDocs_all_mem (st : Store) (u : String) (doc : TxDict) :
    doc ∈ fetchDocs st u Option.none ↔ (u, doc) ∈ st := by
  simp only [fetchDocs, List.mem_map, List.mem_filter, matchesWindow]
  constructor
  · rintro ⟨⟨o, d⟩, ⟨hm, ho⟩, rfl⟩
    simp only [Bool.and_eq_true, beq_iff_eq] at ho
    exact ho.1 ▸ hm
  · intro hm
    exact ⟨(u, doc), ⟨hm, by simp⟩, rfl⟩

/-- With a lower bound, a dated document is fetched iff it belongs to the
owner and its date is at or after the bound. -/
theorem fetchDocs_some_mem (st : Store) (u : String) (s : DateTime) (doc : TxDict)
    (d : DateTime) (hdate : lookupField doc "date" = some (PyVal.dt d)) :
    doc ∈ fetchDocs st u (some s) ↔ ((u, doc) ∈ st ∧ DateTime.leb s d = true) := by
  simp only [fetchDocs, List.mem_map, List.mem_filter, matchesWindow]
  constructor
  · rintro ⟨⟨o, d2⟩, ⟨hm, ho⟩, rfl⟩
    simp only [Bool.and_eq_true, beq_iff_eq] at ho
    rw [hdate] at ho
    exact ⟨ho.1 ▸ hm, ho.2⟩
  · rintro ⟨hm, hle⟩
    exact ⟨(u, doc), ⟨hm, by simp [hdate, hle]⟩, rfl⟩

theorem pyBeq_str_lit (t s : String) : PyVal.beq (PyVal.str t) (PyVal.str s) = (t == s) := rfl

/-- The window of `this_month`: midnight of day 1 of the current month. -/
theorem periodWindow_this_month (now : DateTime) :
    periodWindow now (PyVal.str "this_month") =
      (some ⟨now.year, now.month, 1, 0, 0, 0⟩, "This Month") := by
  simp [periodWindow, pyBeq_str_lit]

/-- The window of `today`: midnight of the current day. -/
theorem periodWindow_today (now : DateTime) :
    periodWindow now (PyVal.str "today") =
      (some ⟨now.year, now.month, now.day, 0, 0, 0⟩, "Today") := by
  simp [periodWindow, pyBeq_str_lit]

/-- Every unrecognized period value gets no lower bound and the label
"Total". -/
theorem periodWindow_other (now : DateTime) (p : PyVal)
    (h1 : PyVal.beq p (PyVal.str "this_month") = false)
    (h2 : PyVal.beq p (PyVal.str "today") = false) :
    periodWindow now p = (Option.none, "Total") := by
  simp [periodWindow, h1, h2]

/-- Exhaustive description of how one call can change the store: either it is
left untouched, or exactly one document — the verbatim decoded
item/price/category plus the timestamp — is appended for this user. -/
theorem try_store_shape (env : Env) (text userId : String) (store : Store)
    (r : Store × String)
    (h : process_text_input_try env text userId store = Except.ok r) :
    r.1 = store
    ∨ ∃ resp fs i p c,
        env.genText (buildPrompt text) = Except.ok resp
        ∧ env.loads (cleanResponse resp) = some (PyVal.dict fs)
        ∧ lookupField fs "intent" = some (PyVal.str "record")
        ∧ lookupField fs "item" = some i
        ∧ lookupField fs "price" = some p
        ∧ lookupField fs "category" = some c
        ∧ r.1 = store ++ [(userId, recDoc i p c env.now)] := by
  unfold process_text_input_try at h
  cases hg : env.genText (buildPrompt text) with
  | error e =>
    simp only [hg] at h
    exact Except.noConfusion h
  | ok resp =>
    simp only [hg] at h
    cases hl : env.loads (cleanResponse resp) with
    | none =>
      simp only [hl, pyDictGet, lookupField, pyEqStr] at h
      cases h
      exact Or.inl rfl
    | some v =>
      simp only [hl] at h
      cases v with
      | dict fs =>
        simp only [pyDictGet] at h
        by_cases hrec : pyEqStr ((lookupField fs "intent").getD PyVal.none) "record" = true
        · rw [if_pos hrec] at h
          have hint : lookupField fs "intent" = some (PyVal.str "record") := by
            cases hiv : lookupField fs "intent" with
            | none => rw [hiv] at hrec; simp [pyEqStr] at hrec
            | some w =>
              rw [hiv, Option.getD_some] at hrec
              cases w with
              | str t => simp only [pyEqStr, beq_iff_eq] at hrec; rw [hrec]
              | none => simp [pyEqStr] at hrec
              | bool b => simp [pyEqStr] at hrec
              | int n => simp [pyEqStr] at hrec
              | list xs => simp [pyEqStr] at hrec
              | dict gs => simp [pyEqStr] at hrec
              | dt d => simp [pyEqStr] at hrec
          simp only [pySubscript] at h
          cases hi : lookupField fs "item" with
          | none => simp only [hi] at h; exact Except.noConfusion h
          | some i =>
            simp only [hi] at h
            cases hp : lookupField fs "price" with
            | none => simp only [hp] at h; exact Except.noConfusion h
            | some p =>
              simp only [hp] at h
              cases hc : lookupField fs "category" with
              | none => simp only [hc] at h; exact Except.noConfusion h
              | some c =>
                simp only [hc] at h
                cases hwk : env.writeOk with
                | false =>
                  rw [hwk] at h
                  simp only [Bool.false_eq_true, if_false] at h
                  exact Except.noConfusion h
                | true =>
                  rw [hwk, if_pos rfl] at h
                  refine Or.inr ⟨resp, fs, i, p, c, rfl, hl, hint, hi, hp, hc, ?_⟩
                  cases h
                  rfl
        · rw [if_neg hrec] at h
          by_cases hqry : pyEqStr ((lookupField fs "intent").getD PyVal.none) "query" = true
          · rw [if_pos hqry] at h
            simp only [pySubscript] at h
            cases hper : lookupField fs "period" with
            | none => simp only [hper] at h; exact Except.noConfusion h
            | some p =>
              simp only [hper] at h
              cases hagg : runAgg
                  (fetchDocs store userId (periodWindow env.now p).1) (PyVal.int 0, []) with
              | error e => simp only [hagg] at h; exact Except.noConfusion h
              | ok res =>
                simp only [hagg] at h
                cases h
                exact Or.inl rfl
          · rw [if_neg hqry] at h
            cases h
            exact Or.inl rfl
      | none => simp [pyDictGet] at h
      | bool b => simp [pyDictGet] at h
      | int n => simp [pyDictGet] at h
      | str s => simp [pyDictGet] at h
      | list xs => simp [pyDictGet] at h
      | dt d => simp [pyDictGet] at h

/-- A fixed wall-clock instant used by the concrete scenarios below. -/
def dt0 : DateTime := ⟨2024, 5, 17, 14, 30, 0⟩

/-- C1 scenario: the model answers with the valid-JSON array text `[]`
(not the expected record shape); `json.loads` decodes it to an empty list. -/
def cenvC1 : Env :=
  ⟨fun _ => Except.ok "[]",
   fun s => if s = "[]" then some (PyVal.list []) else Option.none,
   dt0, true⟩

/-- C1: refutation of the claim as stated.  The response `[]` does not decode
as the expected structured record, yet the flow does not degrade to Unknown:
`data.get("intent")` raises `AttributeError`, the outer handler replies with
the generic error text, and that text differs from the unknown-intent
reply. -/
theorem C1_counterexample :
    process_text_input cenvC1 "hello" "user1" [] = ([], [errorReply])
    ∧ errorReply ≠ unknownReply := by
  exact ⟨rfl, by decide⟩

/-- C1 (amended): a model response that fails JSON decoding degrades to the
Unknown intent (unknown reply, nothing raised); a decoded object whose intent
is neither "record" nor "query" equally degrades to Unknown; but a decoded
non-dict value raises `AttributeError` out of the classification step and
yields the generic error reply instead. -/
theorem C1_decode_degrades_or_raises (env : Env) (text userId : String)
    (store : Store) (resp : String)
    (hgen : env.genText (buildPrompt text) = Except.ok resp) :
    (env.loads (cleanResponse resp) = Option.none →
      process_text_input env text userId store = (store, [unknownReply]))
    ∧ (∀ fs, env.loads (cleanResponse resp) = some (PyVal.dict fs) →
        pyEqStr ((lookupField fs "intent").getD PyVal.none) "record" = false →
        pyEqStr ((lookupField fs "intent").getD PyVal.none) "query" = false →
        process_text_input env text userId store = (store, [unknownReply]))
    ∧ (∀ v, env.loads (cleanResponse resp) = some v →
        pyDictGet v "intent" = Except.error PyErr.attributeError →
        process_text_input env text userId store = (store, [errorReply])) :=
  ⟨fun h => reply_decodeFail env text userId store resp hgen h,
   fun fs h hrec hqry => reply_otherIntent env text userId store resp fs hgen h hrec hqry,
   fun v h hnd => reply_nonDict env text userId store resp v hgen h hnd⟩

/-- C1 witness scenario: the model answers non-JSON prose. -/
def cenvC1w : Env :=
  ⟨fun _ => Except.ok "I cannot help with that.",
   fun _ => Option.none,
   dt0, true⟩

/-- C1 witness: the amended theorem applied to a concrete non-JSON response:
the user gets the unknown-intent reply and nothing is stored. -/
theorem C1_witness :
    process_text_input cenvC1w "hi" "u" [] = ([], [unknownReply]) :=
  (C1_decode_degrades_or_raises cenvC1w "hi" "u" [] "I cannot help with that." rfl).1 rfl

/-- C2/C4 scenario: the model returns a record with empty item and category
and a negative price; nothing in the code validates the shape. -/
def respC2 : String :=
  "\x7b\"intent\": \"record\", \"item\": \"\", \"price\": -5, \"category\": \"\"\x7d"

def dictC2 : PyVal :=
  PyVal.dict [("intent", PyVal.str "record"), ("item", PyVal.str ""),
    ("price", PyVal.int (-5)), ("category", PyVal.str "")]

def cenvC2 : Env :=
  ⟨fun _ => Except.ok respC2,
   fun s => if s = respC2 then some dictC2 else Option.none,
   dt0, true⟩

/-- C2: refutation of the claim as stated.  A record output with empty item,
empty category and price -5 is persisted verbatim (and confirmed to the
user), not downgraded to Unknown: the stored document has a negative price
and empty strings. -/
theorem C2_counterexample :
    process_text_input cenvC2 "x" "user1" [] =
      ([("user1", [("item", PyVal.str ""), ("price", PyVal.int (-5)),
        ("category", PyVal.str ""), ("date", PyVal.dt dt0)])],
       [recordMsg (PyVal.str "") (PyVal.int (-5)) (PyVal.str "")])
    ∧ (-5 : Int) < 0 := by
  exact ⟨rfl, by decide⟩

/-- C2 (amended): a call never modifies existing Transactions; the only write
ever performed appends exactly one document holding the classifier-decoded
item, price and category verbatim plus the timestamp.  No shape validation
occurs: negative or non-integer prices and empty strings are persisted
rather than downgraded to Unknown. -/
theorem C2_writes_are_verbatim (env : Env) (text userId : String) (store : Store) :
    (process_text_input env text userId store).1 = store
    ∨ ∃ resp fs i p c,
        env.genText (buildPrompt text) = Except.ok resp
        ∧ env.loads (cleanResponse resp) = some (PyVal.dict fs)
        ∧ lookupField fs "intent" = some (PyVal.str "record")
        ∧ lookupField fs "item" = some i
        ∧ lookupField fs "price" = some p
        ∧ lookupField fs "category" = some c
        ∧ (process_text_input env text userId store).1 =
            store ++ [(userId, recDoc i p c env.now)] := by
  unfold process_text_input
  cases h : process_text_input_try env text userId store with
  | error e => exact Or.inl rfl
  | ok r =>
    obtain ⟨st, msg⟩ := r
    rcases try_store_shape env text userId store (st, msg) h with
      h1 | ⟨resp, fs, i, p, c, hg, hl, hint, hi, hp, hc, hr⟩
    · exact Or.inl h1
    · exact Or.inr ⟨resp, fs, i, p, c, hg, hl, hint, hi, hp, hc, hr⟩

/-- C3: for every inbound text the handler sends exactly one reply, and
whenever the try body raises any exception, the reply is the fixed generic
error text with the store left unchanged — nothing escapes to the transport
layer. -/
theorem C3_single_reply_safety_net (env : Env) (text userId : String) (store : Store) :
    (process_text_input env text userId store).2.length = 1
    ∧ (∀ e, process_text_input_try env text userId store = Except.error e →
        process_text_input env text userId store = (store, [errorReply])) := by
  constructor
  · unfold process_text_input
    cases h : process_text_input_try env text userId store with
    | ok r => obtain ⟨st, msg⟩ := r; rfl
    | error e => rfl
  · intro e he
    unfold process_text_input
    rw [he]

/-- C3 witness scenario: the model API call itself raises. -/
def cenvC3 : Env :=
  ⟨fun _ => Except.error PyErr.apiError, fun _ => Option.none, dt0, true⟩

/-- C3 witness: with a raising model call, exactly one reply is sent and it is
the generic error text. -/
theorem C3_witness :
    (process_text_input cenvC3 "hi" "u" []).2.length = 1
    ∧ process_text_input cenvC3 "hi" "u" [] = ([], [errorReply]) :=
  ⟨(C3_single_reply_safety_net cenvC3 "hi" "u" []).1,
   (C3_single_reply_safety_net cenvC3 "hi" "u" []).2 PyErr.apiError rfl⟩

/-- C4 scenario: a decoded record intent whose `item` sub-field is missing. -/
def respC4 : String := "\x7b\"intent\": \"record\", \"price\": 5, \"category\": \"Food\"\x7d"

def cenvC4 : Env :=
  ⟨fun _ => Except.ok respC4,
   fun s => if s = respC4 then
       some (PyVal.dict [("intent", PyVal.str "record"), ("price", PyVal.int 5),
         ("category", PyVal.str "Food")])
     else Option.none,
   dt0, true⟩

/-- C4: refutation of the claim as stated.  A record output missing `item`
does not produce the Unknown intent: the item subscript raises `KeyError` and the
user receives the generic error reply, which differs from the unknown-intent
reply. -/
theorem C4_counterexample :
    process_text_input cenvC4 "x" "u" [] = ([], [errorReply])
    ∧ errorReply ≠ unknownReply := by
  exact ⟨rfl, by decide⟩

/-- C4 (amended): for a decoded record intent, a missing `item`, `price` or
`category` sub-field raises `KeyError`, which the outer handler converts to
the generic error reply (not the unknown-intent reply); when all three are
present no validation happens at all — any price value, including a negative
integer, is persisted verbatim and confirmed. -/
theorem C4_missing_subfield_behavior (env : Env) (text userId : String)
    (store : Store) (resp : String) (fs : List (String × PyVal))
    (hgen : env.genText (buildPrompt text) = Except.ok resp)
    (hload : env.loads (cleanResponse resp) = some (PyVal.dict fs))
    (hint : lookupField fs "intent" = some (PyVal.str "record")) :
    (lookupField fs "item" = Option.none ∨ lookupField fs "price" = Option.none ∨
        lookupField fs "category" = Option.none →
      process_text_input env text userId store = (store, [errorReply]))
    ∧ (∀ i p c, lookupField fs "item" = some i → lookupField fs "price" = some p →
        lookupField fs "category" = some c → env.writeOk = true →
        process_text_input env text userId store =
          (store ++ [(userId, recDoc i p c env.now)], [recordMsg i p c])) :=
  ⟨fun hmiss => reply_recordMissing env text userId store resp fs hgen hload hint hmiss,
   fun i p c hi hp hc hw =>
     reply_recordOk env text userId store resp fs i p c hgen hload hint hi hp hc hw⟩

/-- C4 witness: the amended theorem applied to the concrete missing-item
scenario: the generic error reply is sent and nothing is stored. -/
theorem C4_witness :
    process_text_input cenvC4 "x" "u" [] = ([], [errorReply]) :=
  (C4_missing_subfield_behavior cenvC4 "x" "u" [] respC4
    [("intent", PyVal.str "record"), ("price", PyVal.int 5), ("category", PyVal.str "Food")]
    rfl rfl rfl).1 (Or.inl rfl)

/-- C5: the period-to-window mapping computed at invocation time: `today`
bounds the fetch at local midnight of the current day, `this_month` at
midnight of day 1 of the current month, `all` applies no lower bound; a
bounded fetch returns exactly the documents of the owner dated at or after the
bound, and an unbounded fetch returns every document of the owner. -/
theorem C5_period_window_mapping (now : DateTime) (st : Store) (u : String) :
    periodWindow now (PyVal.str "today") =
      (some ⟨now.year, now.month, now.day, 0, 0, 0⟩, "Today")
    ∧ periodWindow now (PyVal.str "this_month") =
      (some ⟨now.year, now.month, 1, 0, 0, 0⟩, "This Month")
    ∧ periodWindow now (PyVal.str "all") = (Option.none, "Total")
    ∧ (∀ s doc d, lookupField doc "date" = some (PyVal.dt d) →
        (doc ∈ fetchDocs st u (some s) ↔ ((u, doc) ∈ st ∧ DateTime.leb s d = true)))
    ∧ (∀ doc, doc ∈ fetchDocs st u Option.none ↔ (u, doc) ∈ st) :=
  ⟨periodWindow_today now, periodWindow_this_month now,
   periodWindow_other now (PyVal.str "all") rfl rfl,
   fun s doc d hd => fetchDocs_some_mem st u s doc d hd,
   fun doc => fetchDocs_all_mem st u doc⟩

/-- C5 witness scenario: one stored document dated in the afternoon of
2024-05-17. -/
def docC5 : TxDict := recDoc (PyVal.str "tea") (PyVal.int 3) (PyVal.str "Food") dt0

def storeC5 : Store := [("u", docC5)]

/-- C5 witness: at 2024-05-17 14:30, `today` maps to midnight 2024-05-17 and
the document recorded at 14:30 that day is inside the window. -/
theorem C5_witness :
    periodWindow dt0 (PyVal.str "today") = (some ⟨2024, 5, 17, 0, 0, 0⟩, "Today")
    ∧ (docC5 ∈ fetchDocs storeC5 "u" (some ⟨2024, 5, 17, 0, 0, 0⟩) ↔
        (("u", docC5) ∈ storeC5 ∧ DateTime.leb ⟨2024, 5, 17, 0, 0, 0⟩ dt0 = true)) :=
  ⟨(C5_period_window_mapping dt0 storeC5 "u").1,
   (C5_period_window_mapping dt0 storeC5 "u").2.2.2.1 ⟨2024, 5, 17, 0, 0, 0⟩ docC5 dt0 rfl⟩

/-- C6: for every fetched document sequence whose prices are integers (or
missing) and categories strings (or missing), the aggregation loop succeeds;
the total is the sum of the price fields (missing prices count 0), and the
category map holds, in first-encounter order, each category string mapped to
the sum of the prices of the documents bearing it (missing categories count
as "Uncategorized"). -/
theorem C6_aggregation_totals (docs : List TxDict)
    (h : ∀ doc ∈ docs, wellShapedB doc = true) :
    ∃ L : List (String × Int),
      runAgg docs (PyVal.int 0, []) =
        Except.ok (PyVal.int ((docs.map priceOf).sum), encCats L)
      ∧ L.map Prod.fst = firstSeen (docs.map catOf)
      ∧ ∀ c : String, lookupCat L c =
          (if c ∈ docs.map catOf then some (sumPricesFor c docs) else Option.none) := by
  refine ⟨catFold [] docs, ?_, ?_, ?_⟩
  · have hr := runAgg_enc docs h 0 []
    simpa [encCats_nil] using hr
  · have hk := catFold_keys docs []
    simpa [firstSeen] using hk
  · intro c
    have hl := catFold_lookup docs [] c
    simpa [lookupCat] using hl

/-- C6 witness scenario: three documents — "Food" 3, a price-only document
(no category) 4, and "Food" 5 again. -/
def docsC6 : List TxDict :=
  [recDoc (PyVal.str "a") (PyVal.int 3) (PyVal.str "Food") dt0,
   [("price", PyVal.int 4)],
   recDoc (PyVal.str "b") (PyVal.int 5) (PyVal.str "Food") dt0]

/-- C6 witness: the aggregation theorem applied to the concrete fetch. -/
theorem C6_witness :
    ∃ L : List (String × Int),
      runAgg docsC6 (PyVal.int 0, []) =
        Except.ok (PyVal.int ((docsC6.map priceOf).sum), encCats L)
      ∧ L.map Prod.fst = firstSeen (docsC6.map catOf)
      ∧ ∀ c : String, lookupCat L c =
          (if c ∈ docsC6.map catOf then some (sumPricesFor c docsC6) else Option.none) :=
  C6_aggregation_totals docsC6 (by decide)

/-- C7 scenario: a well-formed record decode but the Firestore write fails. -/
def respC7 : String :=
  "\x7b\"intent\": \"record\", \"item\": \"Coffee\", \"price\": 50, \"category\": \"Food\"\x7d"

def cenvC7 : Env :=
  ⟨fun _ => Except.ok respC7,
   fun s => if s = respC7 then
       some (PyVal.dict [("intent", PyVal.str "record"), ("item", PyVal.str "Coffee"),
         ("price", PyVal.int 50), ("category", PyVal.str "Food")])
     else Option.none,
   dt0, false⟩

/-- C7: if the store write fails during recording, the user receives the fixed
generic error string (so no success confirmation), the store is unchanged,
and a subsequent unbounded (`All`) fetch sees exactly what it saw before. -/
theorem C7_write_failure_atomic (env : Env) (text userId : String) (store : Store)
    (resp : String) (fs : List (String × PyVal)) (i p c : PyVal)
    (hgen : env.genText (buildPrompt text) = Except.ok resp)
    (hload : env.loads (cleanResponse resp) = some (PyVal.dict fs))
    (hint : lookupField fs "intent" = some (PyVal.str "record"))
    (hitem : lookupField fs "item" = some i)
    (hprice : lookupField fs "price" = some p)
    (hcat : lookupField fs "category" = some c)
    (hw : env.writeOk = false) :
    process_text_input env text userId store = (store, [errorReply])
    ∧ fetchDocs (process_text_input env text userId store).1 userId Option.none =
        fetchDocs store userId Option.none := by
  have h := reply_recordWriteFail env text userId store resp fs i p c
    hgen hload hint hitem hprice hcat hw
  exact ⟨h, by rw [h]⟩

/-- C7 witness: with the concrete failing-write scenario, the error reply is
sent and the store stays empty. -/
theorem C7_witness :
    process_text_input cenvC7 "Coffee $50" "u" [] = ([], [errorReply]) :=
  (C7_write_failure_atomic cenvC7 "Coffee $50" "u" [] respC7
    [("intent", PyVal.str "record"), ("item", PyVal.str "Coffee"),
      ("price", PyVal.int 50), ("category", PyVal.str "Food")]
    (PyVal.str "Coffee") (PyVal.int 50) (PyVal.str "Food")
    rfl rfl rfl rfl rfl rfl rfl).1

/-- C8: every period value other than `this_month` and `today` — in
particular `last_month` — maps to no lower bound with the label "Total",
and the fetch then returns every document of the owner. -/
theorem C8_unrecognized_period_is_all (now : DateTime) (st : Store) (u : String)
    (p : PyVal)
    (h1 : PyVal.beq p (PyVal.str "this_month") = false)
    (h2 : PyVal.beq p (PyVal.str "today") = false) :
    periodWindow now p = (Option.none, "Total")
    ∧ (∀ doc, doc ∈ fetchDocs st u (periodWindow now p).1 ↔ (u, doc) ∈ st) := by
  have hw := periodWindow_other now p h1 h2
  refine ⟨hw, fun doc => ?_⟩
  rw [hw]
  exact fetchDocs_all_mem st u doc

/-- C8 witness scenario: one old document (2020) in the store. -/
def docC8 : TxDict :=
  recDoc (PyVal.str "relic") (PyVal.int 7) (PyVal.str "Misc") ⟨2020, 1, 1, 9, 0, 0⟩

def storeC8 : Store := [("u", docC8)]

/-- C8 witness: `last_month` gets no lower bound and the 2020 document is
fetched. -/
theorem C8_witness :
    periodWindow dt0 (PyVal.str "last_month") = (Option.none, "Total")
    ∧ (docC8 ∈ fetchDocs storeC8 "u" (periodWindow dt0 (PyVal.str "last_month")).1 ↔
        ("u", docC8) ∈ storeC8) :=
  ⟨(C8_unrecognized_period_is_all dt0 storeC8 "u" (PyVal.str "last_month") rfl rfl).1,
   (C8_unrecognized_period_is_all dt0 storeC8 "u" (PyVal.str "last_month") rfl rfl).2 docC8⟩

/-- C9: once transcription has produced a string, the audio handler invokes
the identical processing on it: its outcome equals the text-handler outcome
on the same string for the same user and store. -/
theorem C9_audio_equals_text (aenv : AudioMsgEnv) (s userId : String) (store : Store)
    (h : aenv.transcription = Except.ok s) :
    handle_audio_message aenv userId store = handle_message aenv.textEnv s userId store := by
  simp [handle_audio_message, handle_message, h]

/-- C9 witness scenario: a transcription producing "Coffee 50". -/
def aenvC9 : AudioMsgEnv := ⟨Except.ok "Coffee 50", cenvC3⟩

/-- C9 witness: the concrete audio message behaves exactly as the typed
message "Coffee 50". -/
theorem C9_witness :
    handle_audio_message aenvC9 "u" [] = handle_message cenvC3 "Coffee 50" "u" [] :=
  C9_audio_equals_text aenvC9 "Coffee 50" "u" [] rfl

/-- C10: a query whose window matches no documents still succeeds: the reply
is the report with total $0 and no category lines, and the store is
untouched. -/
theorem C10_empty_fetch_zero_report (env : Env) (text userId : String)
    (store : Store) (resp : String) (fs : List (String × PyVal)) (p : PyVal)
    (hgen : env.genText (buildPrompt text) = Except.ok resp)
    (hload : env.loads (cleanResponse resp) = some (PyVal.dict fs))
    (hint : lookupField fs "intent" = some (PyVal.str "query"))
    (hperiod : lookupField fs "period" = some p)
    (hempty : fetchDocs store userId (periodWindow env.now p).1 = []) :
    process_text_input env text userId store =
      (store, ["📊 Spending Report (" ++ (periodWindow env.now p).2 ++
        ")\n💰 Total: $0\n----------------\n"]) := by
  have h := reply_queryOk env text userId store resp fs p (PyVal.int 0, [])
    hgen hload hint hperiod (by rw [hempty]; rfl)
  rw [h]
  simp only [formatReport, List.foldl, String.append_assoc]
  congr 1

/-- C10 witness scenario: a `today` query against an empty store. -/
def respC10 : String := "\x7b\"intent\": \"query\", \"period\": \"today\"\x7d"

def cenvC10 : Env :=
  ⟨fun _ => Except.ok respC10,
   fun s => if s = respC10 then
       some (PyVal.dict [("intent", PyVal.str "query"), ("period", PyVal.str "today")])
     else Option.none,
   dt0, true⟩

/-- C10 witness: with nothing stored, the reply is the report labelled Today
with total $0 and no category lines. -/
theorem C10_witness :
    process_text_input cenvC10 "how much today" "u" [] =
      ([], ["📊 Spending Report (Today)\n💰 Total: $0\n----------------\n"]) :=
  C10_empty_fetch_zero_report cenvC10 "how much today" "u" [] respC10
    [("intent", PyVal.str "query"), ("period", PyVal.str "today")]
    (PyVal.str "today") rfl rfl rfl rfl rfl
